import Mathlib

/-!
# Verification of the cfb-data validation pipeline

A shallow embedding of the request/response validation layer of the
`cfb-data` Python client, together with theorems checking its
natural-language specification.

Embedded source files:
* `cfb_data/base/validation/validation_api.py` (`CFBDValidationAPI.make_request`)
* `cfb_data/base/validation/request_validators.py` (enums, cross-field rules)
* `cfb_data/game/models/pydantic/requests.py` (`GamesRequest`, `TeamGameStatsRequest`)
* `cfb_data/game/models/pydantic/responses.py` (`TeamRecord`, `TeamRecords`)
* `cfb_data/game/api/game_api.py` (handlers `_get_games`, `_get_team_game_stats`)
* `cfb_data/base/pandas/pandas_api.py` and
  `cfb_data/game/validation/game_validation.py` (attribute resolution of
  `make_request_validated`)

JSON values are modelled with numbers as rationals (the code performs no
floating-point arithmetic: numbers are only looked up, bounds-checked and
passed through).  Pydantic `model_validate` is modelled field by field in
declaration order, collecting the errors of all fields (as pydantic v2
does inside a single model), running `@model_validator(mode="after")`
hooks only when no field error occurred, and raising the collected error
list otherwise.
-/

namespace CfbData

/-- A decoded JSON value, as returned by `resp.json()` in
`CFBDAPIBase._make_request`.  Numbers are modelled as rationals. -/
inductive Json where
  | null : Json
  | bool (b : Bool) : Json
  | num (q : Rat) : Json
  | str (s : String) : Json
  | arr (items : List Json) : Json
  | obj (fields : List (String × Json)) : Json

/-- A Python `Dict[str, Any]` of JSON-representable values, modelled as an
association list (insertion order is significant in Python dicts). -/
abbrev Dict := List (String × Json)

/-- One entry of a pydantic `ValidationError.errors()` list: the location
(path of field names from the model root) and the message. -/
structure ErrorEntry where
  loc : List String
  msg : String
deriving Repr, DecidableEq

/-- The error list carried by a pydantic `ValidationError`. -/
abbrev VErrors := List ErrorEntry

/-- The Python exceptions that the embedded layer can raise. -/
inductive PyError where
  | validationError (errs : VErrors)
  | typeError (msg : String)
  | attributeError (nm : String)
deriving Repr, DecidableEq

instance {ε α : Type} [DecidableEq ε] [DecidableEq α] : DecidableEq (Except ε α) := fun a b =>
  match a, b with
  | .ok x, .ok y =>
    if h : x = y then .isTrue (by rw [h])
    else .isFalse (fun hc => by cases hc; exact h rfl)
  | .error x, .error y =>
    if h : x = y then .isTrue (by rw [h])
    else .isFalse (fun hc => by cases hc; exact h rfl)
  | .ok _, .error _ => .isFalse (fun hc => by cases hc)
  | .error _, .ok _ => .isFalse (fun hc => by cases hc)

/-- First value bound to a key in a Python dict (keys are unique in an
actual dict; on our association lists the first binding wins). -/
def lookupD : Dict → String → Option Json
  | [], _ => none
  | (k, v) :: rest, key => if k = key then some v else lookupD rest key

/-- Field lookup under pydantic's `populate_by_name=True`: the validation
alias is consulted first, then the field name.  For fields without an
alias both names coincide. -/
def lookup2 (d : Dict) (al nm : String) : Option Json :=
  match lookupD d al with
  | some v => some v
  | none => lookupD d nm

/-- Pydantic v2 lax coercion to `int`: an integral number or a numeric
string is accepted, anything else (including booleans) is rejected. -/
def coerceInt : Json → Option Int
  | .num q => if q.den = 1 then some q.num else none
  | .str s => s.toInt?
  | _ => none

/-- `Field(ge=lo, le=hi)` bounds check (either bound optional). -/
def boundsOk (lo hi : Option Int) (n : Int) : Bool :=
  (match lo with
   | none => true
   | some l => decide (l ≤ n)) &&
  (match hi with
   | none => true
   | some h => decide (n ≤ h))

/-- The error list of a field-parse outcome (`[]` when the field parsed). -/
def errsOf {α : Type} : Except VErrors α → VErrors
  | .ok _ => []
  | .error e => e

/-- Re-root nested validation errors below a parent field, as pydantic
does for sub-model fields (`loc = (parent, child, ...)`). -/
def addLoc (pre : List String) (es : VErrors) : VErrors :=
  es.map fun e => ⟨pre ++ e.loc, e.msg⟩

/-- Parse an `Optional[int]` pydantic field with `Field(ge=…, le=…)`
bounds: missing or `None` yields `none`, a coercible value is
bounds-checked, anything else is a field error. -/
def parseOptInt (d : Dict) (al nm : String) (lo hi : Option Int) :
    Except VErrors (Option Int) :=
  match lookup2 d al nm with
  | none => .ok none
  | some .null => .ok none
  | some v =>
    match coerceInt v with
    | none => .error [⟨[nm], "Input should be a valid integer"⟩]
    | some n =>
      if boundsOk lo hi n then .ok (some n)
      else .error [⟨[nm], "Input should be within the declared bounds"⟩]

/-- Parse an `Optional[str]` pydantic field: only strings are accepted
(pydantic v2 does not coerce numbers to `str`). -/
def parseOptStr (d : Dict) (al nm : String) : Except VErrors (Option String) :=
  match lookup2 d al nm with
  | none => .ok none
  | some .null => .ok none
  | some (.str s) => .ok (some s)
  | some _ => .error [⟨[nm], "Input should be a valid string"⟩]

/-- `SeasonType` from `cfb_data/base/validation/request_validators.py`. -/
inductive SeasonType where
  | regular | postseason | both | allstar | spring_regular | spring_postseason
deriving Repr, DecidableEq

/-- The wire value of a `SeasonType` member (`str(SeasonType.x)`). -/
def SeasonType.val : SeasonType → String
  | .regular => "regular"
  | .postseason => "postseason"
  | .both => "both"
  | .allstar => "allstar"
  | .spring_regular => "spring_regular"
  | .spring_postseason => "spring_postseason"

/-- Closed-vocabulary lookup of a `SeasonType` literal. -/
def SeasonType.fromString? (s : String) : Option SeasonType :=
  if s = "regular" then some .regular
  else if s = "postseason" then some .postseason
  else if s = "both" then some .both
  else if s = "allstar" then some .allstar
  else if s = "spring_regular" then some .spring_regular
  else if s = "spring_postseason" then some .spring_postseason
  else none

/-- `Classification` from `cfb_data/base/validation/request_validators.py`. -/
inductive Classification where
  | fbs | fcs | ii | iii
deriving Repr, DecidableEq

/-- The wire value of a `Classification` member. -/
def Classification.val : Classification → String
  | .fbs => "fbs"
  | .fcs => "fcs"
  | .ii => "ii"
  | .iii => "iii"

/-- Closed-vocabulary lookup of a `Classification` literal. -/
def Classification.fromString? (s : String) : Option Classification :=
  if s = "fbs" then some .fbs
  else if s = "fcs" then some .fcs
  else if s = "ii" then some .ii
  else if s = "iii" then some .iii
  else none

/-- Parse an `Optional[SeasonType]` pydantic field. -/
def parseOptSeason (d : Dict) (al nm : String) :
    Except VErrors (Option SeasonType) :=
  match lookup2 d al nm with
  | none => .ok none
  | some .null => .ok none
  | some (.str s) =>
    match SeasonType.fromString? s with
    | some t => .ok (some t)
    | none => .error [⟨[nm], "Input should be a valid SeasonType member"⟩]
  | some _ => .error [⟨[nm], "Input should be a valid SeasonType member"⟩]

/-- Parse an `Optional[Classification]` pydantic field. -/
def parseOptClass (d : Dict) (al nm : String) :
    Except VErrors (Option Classification) :=
  match lookup2 d al nm with
  | none => .ok none
  | some .null => .ok none
  | some (.str s) =>
    match Classification.fromString? s with
    | some t => .ok (some t)
    | none => .error [⟨[nm], "Input should be a valid Classification member"⟩]
  | some _ => .error [⟨[nm], "Input should be a valid Classification member"⟩]

/-- `validate_year_or_id_required` from
`cfb_data/base/validation/request_validators.py`: the message of the
`ValueError` raised when both `year` and the id field are `None`
(`none` when no error is raised). -/
def validate_year_or_id_required (year idField : Option Int)
    (idFieldName : String) : Option String :=
  match year, idField with
  | none, none => some ("year is required when " ++ idFieldName ++ " is not specified")
  | _, _ => none

/-- `validate_team_game_stats_logic` from
`cfb_data/base/validation/request_validators.py`: the `ValueError`
message, or `none` when the parameters satisfy the rules. -/
def validate_team_game_stats_logic (year week : Option Int)
    (team conference : Option String) (game_id : Option Int) : Option String :=
  match game_id with
  | some _ => none
  | none =>
    match year with
    | none => some "year is required when game_id is not specified"
    | some _ =>
      match week, team, conference with
      | none, none, none =>
        some ("At least one of week, team, or conference is required " ++
          "when game_id is not specified")
      | _, _, _ => none

/-- `GamesRequest` from `cfb_data/game/models/pydantic/requests.py`. -/
structure GamesRequest where
  year : Option Int
  week : Option Int
  season_type : Option SeasonType
  team : Option String
  home : Option String
  away : Option String
  conference : Option String
  classification : Option Classification
  id : Option Int
deriving Repr, DecidableEq

/-- `GamesRequest.model_validate` on a parameter dict: parse every field
in declaration order (collecting all field errors), then run the
`validate_year_or_id` after-validator.  Field constraints are those of
the source: `year ∈ [1869, 2030]`, `week ∈ [0, 20]`, `id ≥ 0`,
`season_type`/`classification` from their closed vocabularies, alias
`seasonType` with `populate_by_name=True`. -/
def GamesRequest.model_validate (d : Dict) : Except VErrors GamesRequest :=
  match parseOptInt d "year" "year" (some 1869) (some 2030),
        parseOptInt d "week" "week" (some 0) (some 20),
        parseOptSeason d "seasonType" "season_type",
        parseOptStr d "team" "team",
        parseOptStr d "home" "home",
        parseOptStr d "away" "away",
        parseOptStr d "conference" "conference",
        parseOptClass d "classification" "classification",
        parseOptInt d "id" "id" (some 0) none with
  | .ok y, .ok w, .ok st, .ok t, .ok h, .ok a, .ok c, .ok cl, .ok i =>
    (match validate_year_or_id_required y i "id" with
     | some m => .error [⟨[], "Value error, " ++ m⟩]
     | none => .ok ⟨y, w, st, t, h, a, c, cl, i⟩)
  | py, pw, pst, pt, ph, pa, pc, pcl, pid =>
    .error (errsOf py ++ errsOf pw ++ errsOf pst ++ errsOf pt ++ errsOf ph ++
      errsOf pa ++ errsOf pc ++ errsOf pcl ++ errsOf pid)

/-- `model_dump(exclude_none=True, by_alias=True)` over a model's fields
listed in declaration order as `(alias, value?)` pairs: fields whose
value is `None` are omitted entirely, the others are emitted under their
alias key, in order. -/
def dumpAll : List (String × Option Json) → Dict
  | [] => []
  | (_, none) :: rest => dumpAll rest
  | (k, some v) :: rest => (k, v) :: dumpAll rest

/-- Encoding of an `int` field value in the dumped parameter dict. -/
def encInt (n : Int) : Json := .num (n : Rat)

/-- `GamesRequest.model_dump(exclude_none=True, by_alias=True)` as used
by `CFBDGamesAPI._get_games`: alias keys, declaration order, `None`
fields omitted. -/
def GamesRequest.model_dump (r : GamesRequest) : Dict :=
  dumpAll [("year", r.year.map encInt),
    ("week", r.week.map encInt),
    ("seasonType", r.season_type.map fun s => .str s.val),
    ("team", r.team.map .str),
    ("home", r.home.map .str),
    ("away", r.away.map .str),
    ("conference", r.conference.map fun s => .str s),
    ("classification", r.classification.map fun c => .str c.val),
    ("id", r.id.map encInt)]

/-- The request-validation stage of `CFBDGamesAPI._get_games` followed by
the dump of the parameters it sends: `GamesRequest.model_validate` then
`model_dump(exclude_none=True, by_alias=True)`. -/
def GamesRequest.normalize (p : Dict) : Except VErrors Dict :=
  (GamesRequest.model_validate p).map GamesRequest.model_dump

/-- `TeamGameStatsRequest` from `cfb_data/game/models/pydantic/requests.py`. -/
structure TeamGameStatsRequest where
  year : Option Int
  week : Option Int
  season_type : Option SeasonType
  team : Option String
  conference : Option String
  game_id : Option Int
  classification : Option Classification
deriving Repr, DecidableEq

/-- `TeamGameStatsRequest.model_validate`: parse every field in
declaration order, then run the `validate_team_stats_requirements`
after-validator (which calls `validate_team_game_stats_logic`).  The
`game_id` field has alias `gameId` and bound `ge=0`. -/
def TeamGameStatsRequest.model_validate (d : Dict) :
    Except VErrors TeamGameStatsRequest :=
  match parseOptInt d "year" "year" (some 1869) (some 2030),
        parseOptInt d "week" "week" (some 0) (some 20),
        parseOptSeason d "seasonType" "season_type",
        parseOptStr d "team" "team",
        parseOptStr d "conference" "conference",
        parseOptInt d "gameId" "game_id" (some 0) none,
        parseOptClass d "classification" "classification" with
  | .ok y, .ok w, .ok st, .ok t, .ok c, .ok g, .ok cl =>
    (match validate_team_game_stats_logic y w t c g with
     | some m => .error [⟨[], "Value error, " ++ m⟩]
     | none => .ok ⟨y, w, st, t, c, g, cl⟩)
  | py, pw, pst, pt, pc, pg, pcl =>
    .error (errsOf py ++ errsOf pw ++ errsOf pst ++ errsOf pt ++ errsOf pc ++
      errsOf pg ++ errsOf pcl)

/-- `TeamGameStatsRequest.model_dump(exclude_none=True, by_alias=True)`. -/
def TeamGameStatsRequest.model_dump (r : TeamGameStatsRequest) : Dict :=
  dumpAll [("year", r.year.map encInt),
    ("week", r.week.map encInt),
    ("seasonType", r.season_type.map fun s => .str s.val),
    ("team", r.team.map .str),
    ("conference", r.conference.map fun s => .str s),
    ("gameId", r.game_id.map encInt),
    ("classification", r.classification.map fun c => .str c.val)]

/-- The shared body shape of every `@route` handler in
`cfb_data/game/api/game_api.py`: validate the caller's params with the
endpoint's request model, dump them with
`model_dump(exclude_none=True, by_alias=True)`, and only then hand the
`(endpoint, validated_params)` pair to `self._make_request`.  The `ok`
value is the transport invocation the handler performs; a
`ValidationError` escapes before any transport activity. -/
def handlerCall {R : Type} (validateFn : Dict → Except VErrors R)
    (dumpFn : R → Dict) (path : String) (params : Dict) :
    Except PyError (String × Dict) :=
  match validateFn params with
  | .error e => .error (.validationError e)
  | .ok r => .ok (path, dumpFn r)

/-- The transport invocations a handler run performs (empty when the
handler raised before reaching `self._make_request`). -/
def transportCalls (h : Except PyError (String × Dict)) : List (String × Dict) :=
  match h with
  | .ok c => [c]
  | .error _ => []

/-- `CFBDGamesAPI._get_games` up to its transport call. -/
def CFBDGamesAPI.get_games (params : Dict) : Except PyError (String × Dict) :=
  handlerCall GamesRequest.model_validate GamesRequest.model_dump "/games" params

/-- `CFBDGamesAPI._get_team_game_stats` up to its transport call. -/
def CFBDGamesAPI.get_team_game_stats (params : Dict) :
    Except PyError (String × Dict) :=
  handlerCall TeamGameStatsRequest.model_validate TeamGameStatsRequest.model_dump
    "/games/teams" params

/-- What `CFBDValidationAPI.make_request` hands back to its caller. -/
inductive ResponseData (α : Type) where
  | raw (j : Json)
  | single (r : α)
  | records (rs : List α)

/-- The list comprehension
`[model.model_validate(item) for item in data]`: items are validated
left to right and the first `ValidationError` raised aborts the whole
comprehension. -/
def listValidate {α : Type} (V : Json → Except VErrors α) :
    List Json → Except VErrors (List α)
  | [] => .ok []
  | j :: rest =>
    match V j with
    | .error e => .error e
    | .ok r =>
      match listValidate V rest with
      | .error e => .error e
      | .ok rs => .ok (r :: rs)

/-- The response-processing stage of `CFBDValidationAPI.make_request`
(`cfb_data/base/validation/validation_api.py`): `data` is the decoded
JSON the base layer returned and `model` is
`getattr(handler, "response_model", None)` for the resolved path
(`none` both when no handler and when the handler carries no model),
represented by the model's `model_validate` function. -/
def CFBDValidationAPI.make_request {α : Type}
    (model : Option (Json → Except VErrors α)) (data : Json) :
    Except PyError (ResponseData α) :=
  match model with
  | none => .ok (.raw data)
  | some V =>
    match data with
    | .arr items =>
      (match listValidate V items with
       | .ok rs => .ok (.records rs)
       | .error e => .error (.validationError e))
    | .obj fields =>
      (match V (.obj fields) with
       | .ok r => .ok (.single r)
       | .error e => .error (.validationError e))
    | _ => .error (.typeError "Response data must be list or dict")

/-- `TeamRecord` from `cfb_data/game/models/pydantic/responses.py`. -/
structure TeamRecord where
  games : Int
  wins : Int
  losses : Int
  ties : Int
deriving Repr, DecidableEq

/-- Parse a required `int` pydantic field (no alias, no bounds):
missing is "Field required", a non-coercible value is a type error. -/
def parseReqInt (d : Dict) (nm : String) : Except VErrors Int :=
  match lookupD d nm with
  | none => .error [⟨[nm], "Field required"⟩]
  | some v =>
    match coerceInt v with
    | none => .error [⟨[nm], "Input should be a valid integer"⟩]
    | some n => .ok n

/-- Parse an `int` pydantic field with a literal default (`ties: int = 0`). -/
def parseIntDefault (d : Dict) (nm : String) (dflt : Int) : Except VErrors Int :=
  match lookupD d nm with
  | none => .ok dflt
  | some v =>
    match coerceInt v with
    | none => .error [⟨[nm], "Input should be a valid integer"⟩]
    | some n => .ok n

/-- Parse a required `str` pydantic field. -/
def parseReqStr (d : Dict) (nm : String) : Except VErrors String :=
  match lookupD d nm with
  | none => .error [⟨[nm], "Field required"⟩]
  | some (.str s) => .ok s
  | some _ => .error [⟨[nm], "Input should be a valid string"⟩]

/-- Parse an `Optional[float]` pydantic field; numbers are rationals. -/
def parseOptFloat (d : Dict) (nm : String) : Except VErrors (Option Rat) :=
  match lookupD d nm with
  | none => .ok none
  | some .null => .ok none
  | some (.num q) => .ok (some q)
  | some _ => .error [⟨[nm], "Input should be a valid number"⟩]

/-- `TeamRecord.model_validate`: the four `int` fields in declaration
order, `ties` defaulting to `0`, all field errors collected. -/
def TeamRecord.model_validate (j : Json) : Except VErrors TeamRecord :=
  match j with
  | .obj d =>
    (match parseReqInt d "games", parseReqInt d "wins",
           parseReqInt d "losses", parseIntDefault d "ties" 0 with
     | .ok g, .ok w, .ok l, .ok t => .ok ⟨g, w, l, t⟩
     | pg, pw, pl, pt =>
       .error (errsOf pg ++ errsOf pw ++ errsOf pl ++ errsOf pt))
  | _ => .error [⟨[], "Input should be a valid dictionary or instance of TeamRecord"⟩]

/-- Parse a required nested `TeamRecord` field; nested errors are
re-rooted below the field name, as pydantic does. -/
def parseReqRecord (d : Dict) (nm : String) : Except VErrors TeamRecord :=
  match lookupD d nm with
  | none => .error [⟨[nm], "Field required"⟩]
  | some v =>
    match TeamRecord.model_validate v with
    | .ok r => .ok r
    | .error es => .error (addLoc [nm] es)

/-- Parse an `Optional[TeamRecord]` nested field. -/
def parseOptRecord (d : Dict) (nm : String) : Except VErrors (Option TeamRecord) :=
  match lookupD d nm with
  | none => .ok none
  | some .null => .ok none
  | some v =>
    match TeamRecord.model_validate v with
    | .ok r => .ok (some r)
    | .error es => .error (addLoc [nm] es)

/-- `TeamRecords` from `cfb_data/game/models/pydantic/responses.py`,
the response model the `@route` decorator registers for `/records`. -/
structure TeamRecords where
  year : Int
  team_id : Option Int
  team : String
  conference : Option String
  division : Option String
  expected_wins : Option Rat
  total : TeamRecord
  conference_games : Option TeamRecord
  home_games : Option TeamRecord
  away_games : Option TeamRecord
deriving Repr, DecidableEq

/-- `TeamRecords.model_validate`: all ten fields in declaration order,
collecting every field error of the record (pydantic aggregates across
fields of one model). -/
def TeamRecords.model_validate (j : Json) : Except VErrors TeamRecords :=
  match j with
  | .obj d =>
    (match parseReqInt d "year", parseOptInt d "team_id" "team_id" none none,
           parseReqStr d "team", parseOptStr d "conference" "conference",
           parseOptStr d "division" "division", parseOptFloat d "expected_wins",
           parseReqRecord d "total", parseOptRecord d "conference_games",
           parseOptRecord d "home_games", parseOptRecord d "away_games" with
     | .ok y, .ok ti, .ok t, .ok c, .ok dv, .ok ew, .ok tot, .ok cg, .ok hg, .ok ag =>
       .ok ⟨y, ti, t, c, dv, ew, tot, cg, hg, ag⟩
     | p1, p2, p3, p4, p5, p6, p7, p8, p9, p10 =>
       .error (errsOf p1 ++ errsOf p2 ++ errsOf p3 ++ errsOf p4 ++ errsOf p5 ++
         errsOf p6 ++ errsOf p7 ++ errsOf p8 ++ errsOf p9 ++ errsOf p10))
  | _ => .error [⟨[], "Input should be a valid dictionary or instance of TeamRecords"⟩]

/-- The method names `class CFBDAPIBase` defines
(`cfb_data/base/api/base_api.py`). -/
def cfbdAPIBaseMethods : List String :=
  ["__init__", "_discover_routes", "_make_request", "make_request"]

/-- The method names `class CFBDValidationAPI(CFBDAPIBase)` defines
(`cfb_data/base/validation/validation_api.py`): only `make_request`. -/
def cfbdValidationAPIMethods : List String :=
  ["make_request"]

/-- The method names `class CFBDPanderaAPI(CFBDValidationAPI)` defines
(`cfb_data/base/pandas/pandas_api.py`). -/
def cfbdPanderaAPIMethods : List String :=
  ["make_request_pandas"]

/-- The method names `class CFBDGamesAPI(CFBDAPIBase)` defines
(`cfb_data/game/api/game_api.py`). -/
def cfbdGamesAPIMethods : List String :=
  ["_get_games", "_get_team_records", "_get_calendar", "_get_game_media",
   "_get_game_weather", "_get_player_game_stats", "_get_team_game_stats",
   "_get_box_scores"]

/-- The method names
`class CFBDGamesValidationAPI(CFBDGamesAPI, CFBDValidationAPI)` defines
(`cfb_data/game/validation/game_validation.py`). -/
def cfbdGamesValidationAPIMethods : List String :=
  ["get_games_validated", "get_team_records_validated", "get_calendar_validated",
   "get_game_media_validated", "get_game_weather_validated",
   "get_player_game_stats_validated", "get_team_game_stats_validated",
   "get_box_scores_validated"]

/-- Method resolution order of `CFBDPanderaAPI`, as the per-class method
tables Python scans for an attribute. -/
def panderaMro : List (List String) :=
  [cfbdPanderaAPIMethods, cfbdValidationAPIMethods, cfbdAPIBaseMethods]

/-- Method resolution order of `CFBDGamesValidationAPI` (C3
linearization of `(CFBDGamesAPI, CFBDValidationAPI)`). -/
def gamesValidationMro : List (List String) :=
  [cfbdGamesValidationAPIMethods, cfbdGamesAPIMethods,
   cfbdValidationAPIMethods, cfbdAPIBaseMethods]

/-- Whether `self.<nm>` resolves on a class with the given method
resolution order. -/
def resolveAttr (mro : List (List String)) (nm : String) : Bool :=
  mro.any fun ms => ms.contains nm

/-- Evaluating `self.<nm>(...)`: Python resolves the attribute before
evaluating any argument, so an unresolvable name raises
`AttributeError` for every input. -/
inductive MethodOutcome where
  | raisesAttributeError (nm : String)
  | proceeds
deriving Repr, DecidableEq

/-- Outcome of the attribute access `self.<nm>` opening a method call. -/
def callOn (mro : List (List String)) (nm : String) : MethodOutcome :=
  if resolveAttr mro nm then .proceeds else .raisesAttributeError nm

/-- First evaluation step of `CFBDPanderaAPI.make_request_pandas`, whose
body begins `data = await self.make_request_validated(path, model, params)`. -/
def make_request_pandas_entry : MethodOutcome :=
  callOn panderaMro "make_request_validated"

/-- First evaluation step shared by every
`CFBDGamesValidationAPI.get_*_validated` method, each of whose bodies
begins `result = await self.make_request_validated(...)`. -/
def get_validated_entry : MethodOutcome :=
  callOn gamesValidationMro "make_request_validated"

/-! ## Claim theorems -/

/-- C3: for the year-or-id rule of `/games` request parameters,
`{year: 2023}` validates, `{id: 500}` validates, `{}` fails with an
error naming the required field `year`, and `{year: 2023, id: 500}`
validates (year and id are not mutually exclusive). -/
theorem games_year_or_id_rule :
    GamesRequest.model_validate [("year", .num 2023)] =
      .ok ⟨some 2023, none, none, none, none, none, none, none, none⟩ ∧
    GamesRequest.model_validate [("id", .num 500)] =
      .ok ⟨none, none, none, none, none, none, none, none, some 500⟩ ∧
    (GamesRequest.model_validate [] =
      .error [⟨[], "Value error, year is required when id is not specified"⟩] ∧
     "year".toList <:+:
       "Value error, year is required when id is not specified".toList) ∧
    GamesRequest.model_validate [("year", .num 2023), ("id", .num 500)] =
      .ok ⟨some 2023, none, none, none, none, none, none, none, some 500⟩ := by
  exact ⟨by decide, by decide, ⟨by decide, by decide⟩, by decide⟩

/-- C4: for the `/games/teams` at-least-one-of rule over
`{week, team, conference}` given `year` and no `game_id`, presence means
"is not null": `{year: 2023, week: 0}` validates, `{year: 2023, team: ""}`
validates, and `{year: 2023}` alone fails. -/
theorem team_game_stats_presence_is_not_null :
    TeamGameStatsRequest.model_validate [("year", .num 2023), ("week", .num 0)] =
      .ok ⟨some 2023, some 0, none, none, none, none, none⟩ ∧
    TeamGameStatsRequest.model_validate [("year", .num 2023), ("team", .str "")] =
      .ok ⟨some 2023, none, none, some "", none, none, none⟩ ∧
    TeamGameStatsRequest.model_validate [("year", .num 2023)] =
      .error [⟨[], "Value error, At least one of week, team, or conference " ++
        "is required when game_id is not specified"⟩] := by
  exact ⟨by decide, by decide, by decide⟩

/-- C10: `make_request_validated` resolves on neither `CFBDPanderaAPI`
nor `CFBDGamesValidationAPI` (no class in either method resolution order
defines it — `CFBDValidationAPI` defines only `make_request`), so
`CFBDPanderaAPI.make_request_pandas` and every
`CFBDGamesValidationAPI.get_*_validated` method raise `AttributeError`
at their first step, for every input. -/
theorem make_request_validated_is_undefined :
    make_request_pandas_entry = .raisesAttributeError "make_request_validated" ∧
    get_validated_entry = .raisesAttributeError "make_request_validated" ∧
    resolveAttr panderaMro "make_request_validated" = false ∧
    resolveAttr gamesValidationMro "make_request_validated" = false ∧
    resolveAttr panderaMro "make_request" = true ∧
    resolveAttr gamesValidationMro "make_request" = true := by
  exact ⟨by decide, by decide, by decide, by decide, by decide, by decide⟩

/-- If every element of the list validates, the comprehension returns a
list. -/
theorem listValidate_ok_of_forall {α : Type} (V : Json → Except VErrors α) :
    ∀ items : List Json, (∀ j ∈ items, ∃ r, V j = .ok r) →
      ∃ rs, listValidate V items = .ok rs := by
  intro items
  induction items with
  | nil => exact fun _ => ⟨[], rfl⟩
  | cons j rest ih =>
    intro h
    obtain ⟨r, hr⟩ := h j (List.mem_cons_self j rest)
    obtain ⟨rs, hrs⟩ := ih fun x hx => h x (List.mem_cons_of_mem j hx)
    exact ⟨r :: rs, by simp [listValidate, hr, hrs]⟩

/-- A successful comprehension is pointwise: it has one output per input,
in order, each output being the validation of the input at the same
index. -/
theorem listValidate_spec {α : Type} (V : Json → Except VErrors α) :
    ∀ (items : List Json) (rs : List α), listValidate V items = .ok rs →
      rs.length = items.length ∧
      ∀ i (h1 : i < items.length) (h2 : i < rs.length),
        V (items.get ⟨i, h1⟩) = .ok (rs.get ⟨i, h2⟩) := by
  intro items
  induction items with
  | nil =>
    intro rs h
    unfold listValidate at h
    cases h
    exact ⟨rfl, fun i h1 => absurd h1 (Nat.not_lt_zero i)⟩
  | cons j rest ih =>
    intro rs h
    unfold listValidate at h
    cases hV : V j with
    | error e => rw [hV] at h; cases h
    | ok r =>
      rw [hV] at h
      cases hrest : listValidate V rest with
      | error e => rw [hrest] at h; cases h
      | ok rs' =>
        rw [hrest] at h
        cases h
        obtain ⟨hlen, hpt⟩ := ih rs' hrest
        refine ⟨by simp [hlen], ?_⟩
        intro i h1 h2
        cases i with
        | zero => exact hV
        | succ n =>
          exact hpt n (Nat.lt_of_succ_lt_succ h1) (Nat.lt_of_succ_lt_succ h2)

/-- If any element fails to validate, the comprehension raises. -/
theorem listValidate_error_of_mem {α : Type} (V : Json → Except VErrors α) :
    ∀ items : List Json, (∃ j ∈ items, ∃ e, V j = .error e) →
      ∃ e', listValidate V items = .error e' := by
  intro items
  induction items with
  | nil => rintro ⟨j, hj, _⟩; cases hj
  | cons j rest ih =>
    rintro ⟨x, hx, e, he⟩
    rcases List.mem_cons.mp hx with rfl | hx
    · exact ⟨e, by simp [listValidate, he]⟩
    · cases hV : V j with
      | error e2 => exact ⟨e2, by simp [listValidate, hV]⟩
      | ok r =>
        obtain ⟨e', he'⟩ := ih ⟨x, hx, e, he⟩
        exact ⟨e', by simp [listValidate, hV, he']⟩

/-- The error the comprehension raises is exactly the error of the first
failing element; elements after it are never validated. -/
theorem listValidate_first_error {α : Type} (V : Json → Except VErrors α)
    (e : VErrors) (bad : Json) (rest : List Json) (hbad : V bad = .error e) :
    ∀ pre : List Json, (∀ j ∈ pre, ∃ r, V j = .ok r) →
      listValidate V (pre ++ bad :: rest) = .error e := by
  intro pre
  induction pre with
  | nil => intro _; simp [listValidate, hbad]
  | cons j ps ih =>
    intro hpre
    obtain ⟨r, hr⟩ := hpre j (List.mem_cons_self j ps)
    have h2 := ih fun x hx => hpre x (List.mem_cons_of_mem j hx)
    simp [listValidate, hr, h2]

/-- C1: for a path whose handler registers a response model, a JSON
array of N objects that all validate yields exactly N typed records,
order-preserved: the i-th record is the validation of the i-th object. -/
theorem make_request_array_order_preserved (α : Type)
    (V : Json → Except VErrors α) (items : List Json)
    (h : ∀ j ∈ items, ∃ r, V j = .ok r) :
    ∃ rs, CFBDValidationAPI.make_request (some V) (.arr items) =
        .ok (.records rs) ∧
      rs.length = items.length ∧
      ∀ i (h1 : i < items.length) (h2 : i < rs.length),
        V (items.get ⟨i, h1⟩) = .ok (rs.get ⟨i, h2⟩) := by
  obtain ⟨rs, hrs⟩ := listValidate_ok_of_forall V items h
  obtain ⟨hlen, hpt⟩ := listValidate_spec V items rs hrs
  exact ⟨rs, by simp [CFBDValidationAPI.make_request, hrs], hlen, hpt⟩

/-- A well-formed `/records` response object. -/
def recDict1 : Json := .obj [("year", .num 2020), ("team", .str "Alabama"),
  ("total", .obj [("games", .num 12), ("wins", .num 10), ("losses", .num 2)])]

/-- A second well-formed `/records` response object. -/
def recDict2 : Json := .obj [("year", .num 2021), ("team", .str "Georgia"),
  ("total", .obj [("games", .num 13), ("wins", .num 11), ("losses", .num 2),
    ("ties", .num 0)])]

/-- The validated record of `recDict1`. -/
def record1 : TeamRecords :=
  ⟨2020, none, "Alabama", none, none, none, ⟨12, 10, 2, 0⟩, none, none, none⟩

/-- The validated record of `recDict2`. -/
def record2 : TeamRecords :=
  ⟨2021, none, "Georgia", none, none, none, ⟨13, 11, 2, 0⟩, none, none, none⟩

/-- Witness for C1 on the `/records` response model at a concrete
two-element array. -/
theorem make_request_array_order_preserved_witness :
    ∃ rs, CFBDValidationAPI.make_request (some TeamRecords.model_validate)
        (.arr [recDict1, recDict2]) = .ok (.records rs) ∧
      rs.length = ([recDict1, recDict2] : List Json).length ∧
      ∀ i (h1 : i < ([recDict1, recDict2] : List Json).length) (h2 : i < rs.length),
        TeamRecords.model_validate (([recDict1, recDict2] : List Json).get ⟨i, h1⟩) =
          .ok (rs.get ⟨i, h2⟩) :=
  make_request_array_order_preserved TeamRecords TeamRecords.model_validate
    [recDict1, recDict2]
    (by
      intro j hj
      rcases List.mem_cons.mp hj with rfl | hj
      · exact ⟨record1, by decide⟩
      rcases List.mem_cons.mp hj with rfl | hj
      · exact ⟨record2, by decide⟩
      cases hj)

/-- C2: for a path whose handler registers a response model, if any one
element of the returned JSON array fails record validation, the whole
call raises a `ValidationError`; the caller never receives a (partial)
record list. -/
theorem make_request_aborts_on_any_invalid_element (α : Type)
    (V : Json → Except VErrors α) (items : List Json)
    (h : ∃ j ∈ items, ∃ e, V j = .error e) :
    (∃ e', CFBDValidationAPI.make_request (some V) (.arr items) =
      .error (.validationError e')) ∧
    ∀ rs, CFBDValidationAPI.make_request (some V) (.arr items) ≠
      .ok (.records rs) := by
  obtain ⟨e', he'⟩ := listValidate_error_of_mem V items h
  refine ⟨⟨e', by simp [CFBDValidationAPI.make_request, he']⟩, ?_⟩
  intro rs hc
  rw [show CFBDValidationAPI.make_request (some V) (.arr items) =
    .error (.validationError e') by simp [CFBDValidationAPI.make_request, he']] at hc
  cases hc

/-- A `/records` response object with no `team` field. -/
def missingTeamDict : Json := .obj [("year", .num 2020),
  ("total", .obj [("games", .num 12), ("wins", .num 10), ("losses", .num 2)])]

/-- Witness for C2: one invalid element among two aborts the whole call. -/
theorem make_request_aborts_on_any_invalid_element_witness :
    (∃ e', CFBDValidationAPI.make_request (some TeamRecords.model_validate)
      (.arr [recDict1, missingTeamDict]) = .error (.validationError e')) ∧
    ∀ rs, CFBDValidationAPI.make_request (some TeamRecords.model_validate)
      (.arr [recDict1, missingTeamDict]) ≠ .ok (.records rs) :=
  make_request_aborts_on_any_invalid_element TeamRecords
    TeamRecords.model_validate [recDict1, missingTeamDict]
    ⟨missingTeamDict, by simp,
      [⟨["team"], "Field required"⟩], by decide⟩

/-- A `/records` response object with no `total` field. -/
def missingTotalDict : Json := .obj [("year", .num 2020), ("team", .str "Alabama")]

/-- C8 counterexample: with two invalid records in the array, the error
that surfaces carries only the invalid field of the first record
(`total` of record 0); the invalid field of the second record (`team` of
record 1) is validated never and appears nowhere in the surfaced error.
So the surfaced error does not enumerate every invalid field across
every record. -/
theorem make_request_error_not_across_records :
    CFBDValidationAPI.make_request (some TeamRecords.model_validate)
      (.arr [missingTotalDict, missingTeamDict]) =
      .error (.validationError [⟨["total"], "Field required"⟩]) ∧
    TeamRecords.model_validate missingTeamDict =
      .error [⟨["team"], "Field required"⟩] ∧
    (⟨["team"], "Field required"⟩ : ErrorEntry) ∉
      ([⟨["total"], "Field required"⟩] : VErrors) := by
  exact ⟨by rfl, by decide, by decide⟩

/-- C8 amended: the surfaced error is the structured error enumerating
every invalid field of the first record that fails validation; records
after the first failing one are never validated and contribute nothing
to the surfaced error. -/
theorem make_request_error_is_first_failing_record (α : Type)
    (V : Json → Except VErrors α) (pre : List Json) (bad : Json)
    (rest : List Json) (e : VErrors)
    (hpre : ∀ j ∈ pre, ∃ r, V j = .ok r) (hbad : V bad = .error e) :
    CFBDValidationAPI.make_request (some V) (.arr (pre ++ bad :: rest)) =
      .error (.validationError e) := by
  have h := listValidate_first_error V e bad rest hbad pre hpre
  simp [CFBDValidationAPI.make_request, h]

/-- Witness for the amended C8 at a concrete array: one valid record,
then a record missing `total`, then a record missing `team`; the
surfaced error is exactly the first failing record's error list. -/
theorem make_request_error_is_first_failing_record_witness :
    CFBDValidationAPI.make_request (some TeamRecords.model_validate)
      (.arr ([recDict1] ++ missingTotalDict :: [missingTeamDict])) =
      .error (.validationError [⟨["total"], "Field required"⟩]) :=
  make_request_error_is_first_failing_record TeamRecords
    TeamRecords.model_validate [recDict1] missingTotalDict [missingTeamDict]
    [⟨["total"], "Field required"⟩]
    (by
      intro j hj
      rcases List.mem_cons.mp hj with rfl | hj
      · exact ⟨record1, by decide⟩
      cases hj)
    (by decide)

/-- C9: when a response model is registered, decoded JSON that is
neither a list nor a dict raises the hard `TypeError` stating that
response data must be a (JSON) object or array, i.e. a Python dict or
list; when no response model is registered for the resolved path, the
raw decoded JSON is returned unmodified. -/
theorem make_request_shape_check_and_passthrough :
    (∀ (α : Type) (V : Json → Except VErrors α) (j : Json),
      (∀ items, j ≠ .arr items) → (∀ fields, j ≠ .obj fields) →
      CFBDValidationAPI.make_request (some V) j =
        .error (.typeError "Response data must be list or dict")) ∧
    (∀ (α : Type) (j : Json),
      @CFBDValidationAPI.make_request α none j = .ok (.raw j)) := by
  constructor
  · intro α V j h1 h2
    cases j with
    | arr items => exact absurd rfl (h1 items)
    | obj fields => exact absurd rfl (h2 fields)
    | null => rfl
    | bool b => rfl
    | num q => rfl
    | str s => rfl
  · intro α j
    rfl

/-- Witness for C9: a scalar response under the `/records` model raises
the shape `TypeError`; with no model the raw JSON comes back unchanged. -/
theorem make_request_shape_check_and_passthrough_witness :
    CFBDValidationAPI.make_request (some TeamRecords.model_validate) (.num 3) =
      .error (.typeError "Response data must be list or dict") ∧
    @CFBDValidationAPI.make_request TeamRecords none (.str "ok") =
      .ok (.raw (.str "ok")) :=
  ⟨make_request_shape_check_and_passthrough.1 TeamRecords
      TeamRecords.model_validate (.num 3)
      (fun _ h => by cases h) (fun _ h => by cases h),
    make_request_shape_check_and_passthrough.2 TeamRecords (.str "ok")⟩

/-- C5: request validation strictly precedes network I/O.  Every
registered handler has the shape `handlerCall`: validate, dump, then
transport; for any parameter set its request model rejects, the handler
raises the `ValidationError` and performs no transport call.  Stated
generically over the handler shape and instantiated at the embedded
handlers `_get_games` and `_get_team_game_stats`. -/
theorem validation_precedes_transport :
    (∀ (R : Type) (validateFn : Dict → Except VErrors R) (dumpFn : R → Dict)
        (path : String) (params : Dict) (e : VErrors),
      validateFn params = .error e →
      handlerCall validateFn dumpFn path params = .error (.validationError e) ∧
      transportCalls (handlerCall validateFn dumpFn path params) = []) ∧
    (∀ (params : Dict) (e : VErrors),
      GamesRequest.model_validate params = .error e →
      transportCalls (CFBDGamesAPI.get_games params) = []) ∧
    (∀ (params : Dict) (e : VErrors),
      TeamGameStatsRequest.model_validate params = .error e →
      transportCalls (CFBDGamesAPI.get_team_game_stats params) = []) := by
  have hgen : ∀ (R : Type) (vf : Dict → Except VErrors R) (df : R → Dict)
      (path : String) (p : Dict) (e : VErrors),
      vf p = .error e → handlerCall vf df path p = .error (.validationError e) := by
    intro R vf df path p e he
    simp [handlerCall, he]
  refine ⟨fun R vf df path p e he => ⟨hgen R vf df path p e he, ?_⟩, ?_, ?_⟩
  · rw [hgen R vf df path p e he]; rfl
  · intro p e he
    rw [CFBDGamesAPI.get_games,
      hgen GamesRequest GamesRequest.model_validate GamesRequest.model_dump
        "/games" p e he]
    rfl
  · intro p e he
    rw [CFBDGamesAPI.get_team_game_stats,
      hgen TeamGameStatsRequest TeamGameStatsRequest.model_validate
        TeamGameStatsRequest.model_dump "/games/teams" p e he]
    rfl

/-- Witness for C5: the empty parameter set fails both embedded request
models, and the corresponding handlers perform no transport call. -/
theorem validation_precedes_transport_witness :
    transportCalls (CFBDGamesAPI.get_games []) = [] ∧
    transportCalls (CFBDGamesAPI.get_team_game_stats []) = [] :=
  ⟨validation_precedes_transport.2.1 []
      [⟨[], "Value error, year is required when id is not specified"⟩] (by decide),
    validation_precedes_transport.2.2 []
      [⟨[], "Value error, year is required when game_id is not specified"⟩]
      (by decide)⟩

/-! ## Round-trip infrastructure: looking keys up in a dumped dict -/

/-- Looking a key up among `(alias, value?)` field entries, skipping
omitted fields. -/
def lookupOpt : List (String × Option Json) → String → Option Json
  | [], _ => none
  | (_, none) :: rest, k => lookupOpt rest k
  | (k', some v) :: rest, k => if k' = k then some v else lookupOpt rest k

/-- Key lookup in a dumped dict is key lookup among the field entries. -/
theorem lookupD_dumpAll (k : String) :
    ∀ entries, lookupD (dumpAll entries) k = lookupOpt entries k := by
  intro entries
  induction entries with
  | nil => rfl
  | cons e rest ih =>
    obtain ⟨k', o⟩ := e
    cases o with
    | none => simpa [dumpAll, lookupOpt] using ih
    | some v =>
      by_cases hk : k' = k
      · simp [dumpAll, lookupOpt, lookupD, hk]
      · simp [dumpAll, lookupOpt, lookupD, hk, ih]

/-- Membership in a dumped dict: exactly the non-omitted field entries. -/
theorem mem_dumpAll (x : String × Json) :
    ∀ entries, x ∈ dumpAll entries ↔ (x.1, some x.2) ∈ entries := by
  intro entries
  induction entries with
  | nil => simp [dumpAll]
  | cons e rest ih =>
    obtain ⟨k', o⟩ := e
    cases o with
    | none =>
      simp only [dumpAll, ih, List.mem_cons]
      constructor
      · exact fun h => Or.inr h
      · rintro (h | h)
        · cases x; simp at h
        · exact h
    | some v =>
      simp only [dumpAll, List.mem_cons, ih]
      constructor
      · rintro (rfl | h)
        · exact Or.inl rfl
        · exact Or.inr h
      · rintro (h | h)
        · cases x
          simp only [Prod.mk.injEq, Option.some.injEq] at h
          obtain ⟨rfl, rfl⟩ := h
          exact Or.inl rfl
        · exact Or.inr h

/-- `lookup2` with equal alias and field name is a plain lookup. -/
theorem lookup2_self (d : Dict) (k : String) : lookup2 d k k = lookupD d k := by
  unfold lookup2
  cases h : lookupD d k <;> simp

/-- Integer coercion round-trips on encoded ints. -/
theorem coerceInt_encInt (n : Int) : coerceInt (encInt n) = some n := by
  simp [coerceInt, encInt, Rat.den_intCast, Rat.num_intCast]

/-- `parseOptInt` accepts a looked-up encoded optional int whose value
(if any) meets the field bounds, and returns exactly it. -/
theorem parseOptInt_eval (d : Dict) (al nm : String) (lo hi : Option Int)
    (o : Option Int) (hl : lookup2 d al nm = o.map encInt)
    (hb : ∀ n, o = some n → boundsOk lo hi n = true) :
    parseOptInt d al nm lo hi = .ok o := by
  cases o with
  | none => simp [parseOptInt, hl]
  | some n =>
    have hb' := hb n rfl
    simp [parseOptInt, hl, encInt, coerceInt_encInt, hb',
      coerceInt, Rat.den_intCast, Rat.num_intCast]

/-- `parseOptStr` accepts a looked-up optional string. -/
theorem parseOptStr_eval (d : Dict) (al nm : String) (o : Option String)
    (hl : lookup2 d al nm = o.map Json.str) :
    parseOptStr d al nm = .ok o := by
  cases o <;> simp [parseOptStr, hl]

/-- The closed `SeasonType` vocabulary recognises each wire value. -/
theorem seasonType_fromString_val (s : SeasonType) :
    SeasonType.fromString? s.val = some s := by
  cases s <;> decide

/-- The closed `Classification` vocabulary recognises each wire value. -/
theorem classification_fromString_val (c : Classification) :
    Classification.fromString? c.val = some c := by
  cases c <;> decide

/-- `parseOptSeason` accepts a looked-up dumped season type. -/
theorem parseOptSeason_eval (d : Dict) (al nm : String) (o : Option SeasonType)
    (hl : lookup2 d al nm = o.map fun s => .str s.val) :
    parseOptSeason d al nm = .ok o := by
  cases o with
  | none => simp [parseOptSeason, hl]
  | some s => simp [parseOptSeason, hl, seasonType_fromString_val]

/-- `parseOptClass` accepts a looked-up dumped classification. -/
theorem parseOptClass_eval (d : Dict) (al nm : String) (o : Option Classification)
    (hl : lookup2 d al nm = o.map fun c => .str c.val) :
    parseOptClass d al nm = .ok o := by
  cases o with
  | none => simp [parseOptClass, hl]
  | some c => simp [parseOptClass, hl, classification_fromString_val]

/-- Skipping a differently-keyed field entry during lookup. -/
theorem lookupOpt_skip (k' k : String) (o : Option Json)
    (rest : List (String × Option Json)) (h : k' ≠ k) :
    lookupOpt ((k', o) :: rest) k = lookupOpt rest k := by
  cases o <;> simp [lookupOpt, h]

/-- Hitting the matching field entry during lookup (an omitted field
falls through to the rest). -/
theorem lookupOpt_take (k : String) (o : Option Json)
    (rest : List (String × Option Json)) :
    lookupOpt ((k, o) :: rest) k =
      match o with
      | some v => some v
      | none => lookupOpt rest k := by
  cases o <;> simp [lookupOpt]

/-- `year` in a dumped `GamesRequest`. -/
theorem glookupD_year (r : GamesRequest) :
    lookupD r.model_dump "year" = r.year.map encInt := by
  rw [GamesRequest.model_dump, lookupD_dumpAll]
  simp [lookupOpt_skip, lookupOpt_take, lookupOpt]
  cases r.year <;> simp

/-- `week` in a dumped `GamesRequest`. -/
theorem glookupD_week (r : GamesRequest) :
    lookupD r.model_dump "week" = r.week.map encInt := by
  rw [GamesRequest.model_dump, lookupD_dumpAll]
  simp [lookupOpt_skip, lookupOpt_take, lookupOpt]
  cases r.week <;> simp

/-- `seasonType` in a dumped `GamesRequest`. -/
theorem glookupD_seasonType (r : GamesRequest) :
    lookupD r.model_dump "seasonType" = r.season_type.map fun s => .str s.val := by
  rw [GamesRequest.model_dump, lookupD_dumpAll]
  simp [lookupOpt_skip, lookupOpt_take, lookupOpt]
  cases r.season_type <;> simp

/-- The internal name `season_type` is never a key of a dumped
`GamesRequest` (`by_alias=True` emits `seasonType`). -/
theorem glookupD_season_type_none (r : GamesRequest) :
    lookupD r.model_dump "season_type" = none := by
  rw [GamesRequest.model_dump, lookupD_dumpAll]
  simp [lookupOpt_skip, lookupOpt_take, lookupOpt]

/-- `team` in a dumped `GamesRequest`. -/
theorem glookupD_team (r : GamesRequest) :
    lookupD r.model_dump "team" = r.team.map Json.str := by
  rw [GamesRequest.model_dump, lookupD_dumpAll]
  simp [lookupOpt_skip, lookupOpt_take, lookupOpt]
  cases r.team <;> simp

/-- `home` in a dumped `GamesRequest`. -/
theorem glookupD_home (r : GamesRequest) :
    lookupD r.model_dump "home" = r.home.map Json.str := by
  rw [GamesRequest.model_dump, lookupD_dumpAll]
  simp [lookupOpt_skip, lookupOpt_take, lookupOpt]
  cases r.home <;> simp

/-- `away` in a dumped `GamesRequest`. -/
theorem glookupD_away (r : GamesRequest) :
    lookupD r.model_dump "away" = r.away.map Json.str := by
  rw [GamesRequest.model_dump, lookupD_dumpAll]
  simp [lookupOpt_skip, lookupOpt_take, lookupOpt]
  cases r.away <;> simp

/-- `conference` in a dumped `GamesRequest`. -/
theorem glookupD_conference (r : GamesRequest) :
    lookupD r.model_dump "conference" = r.conference.map Json.str := by
  rw [GamesRequest.model_dump, lookupD_dumpAll]
  simp [lookupOpt_skip, lookupOpt_take, lookupOpt]
  cases r.conference <;> simp

/-- `classification` in a dumped `GamesRequest`. -/
theorem glookupD_classification (r : GamesRequest) :
    lookupD r.model_dump "classification" =
      r.classification.map fun c => .str c.val := by
  rw [GamesRequest.model_dump, lookupD_dumpAll]
  simp [lookupOpt_skip, lookupOpt_take, lookupOpt]
  cases r.classification <;> simp

/-- `id` in a dumped `GamesRequest`. -/
theorem glookupD_id (r : GamesRequest) :
    lookupD r.model_dump "id" = r.id.map encInt := by
  rw [GamesRequest.model_dump, lookupD_dumpAll]
  simp [lookupOpt_skip, lookupOpt_take, lookupOpt]
  cases r.id <;> simp

/-- Aliased lookup of the season type in a dumped `GamesRequest`. -/
theorem glookup2_season (r : GamesRequest) :
    lookup2 r.model_dump "seasonType" "season_type" =
      r.season_type.map fun s => .str s.val := by
  unfold lookup2
  rw [glookupD_seasonType, glookupD_season_type_none]
  cases r.season_type <;> simp

/-- An `.ok (some n)` outcome of `parseOptInt` certifies the field
bounds. -/
theorem parseOptInt_ok_bounds (d : Dict) (al nm : String) (lo hi : Option Int)
    (o : Option Int) (h : parseOptInt d al nm lo hi = .ok o) :
    ∀ n, o = some n → boundsOk lo hi n = true := by
  rintro n rfl
  unfold parseOptInt at h
  split at h
  · cases h
  · cases h
  · split at h
    · cases h
    · split at h
      · rename_i hbb
        cases h
        exact hbb
      · cases h

/-- The invariants `GamesRequest.model_validate` establishes on every
record it returns: the declared field bounds and the year-or-id rule. -/
def GamesRequest.constraintsHold (r : GamesRequest) : Prop :=
  (∀ n, r.year = some n → boundsOk (some 1869) (some 2030) n = true) ∧
  (∀ n, r.week = some n → boundsOk (some 0) (some 20) n = true) ∧
  (∀ n, r.id = some n → boundsOk (some 0) none n = true) ∧
  validate_year_or_id_required r.year r.id "id" = none

/-- Every record `GamesRequest.model_validate` returns satisfies its
declared constraints. -/
theorem games_validate_ok_constraints (d : Dict) (r : GamesRequest)
    (h : GamesRequest.model_validate d = .ok r) : r.constraintsHold := by
  unfold GamesRequest.model_validate at h
  split at h
  · split at h
    · cases h
    · cases h
      exact ⟨parseOptInt_ok_bounds _ _ _ _ _ _ (by assumption),
        parseOptInt_ok_bounds _ _ _ _ _ _ (by assumption),
        parseOptInt_ok_bounds _ _ _ _ _ _ (by assumption),
        by assumption⟩
  · cases h

/-- Round trip: re-validating the dumped form of a constraint-satisfying
record succeeds and reconstructs the record exactly. -/
theorem games_validate_dump (r : GamesRequest) (hc : r.constraintsHold) :
    GamesRequest.model_validate r.model_dump = .ok r := by
  obtain ⟨h1, h2, h3, h4⟩ := hc
  have hy : parseOptInt r.model_dump "year" "year" (some 1869) (some 2030) =
      .ok r.year :=
    parseOptInt_eval _ _ _ _ _ _ (by rw [lookup2_self, glookupD_year]) h1
  have hw : parseOptInt r.model_dump "week" "week" (some 0) (some 20) =
      .ok r.week :=
    parseOptInt_eval _ _ _ _ _ _ (by rw [lookup2_self, glookupD_week]) h2
  have hst : parseOptSeason r.model_dump "seasonType" "season_type" =
      .ok r.season_type :=
    parseOptSeason_eval _ _ _ _ (glookup2_season r)
  have ht : parseOptStr r.model_dump "team" "team" = .ok r.team :=
    parseOptStr_eval _ _ _ _ (by rw [lookup2_self, glookupD_team])
  have hh : parseOptStr r.model_dump "home" "home" = .ok r.home :=
    parseOptStr_eval _ _ _ _ (by rw [lookup2_self, glookupD_home])
  have ha : parseOptStr r.model_dump "away" "away" = .ok r.away :=
    parseOptStr_eval _ _ _ _ (by rw [lookup2_self, glookupD_away])
  have hcf : parseOptStr r.model_dump "conference" "conference" =
      .ok r.conference :=
    parseOptStr_eval _ _ _ _ (by rw [lookup2_self, glookupD_conference])
  have hcl : parseOptClass r.model_dump "classification" "classification" =
      .ok r.classification :=
    parseOptClass_eval _ _ _ _ (by rw [lookup2_self, glookupD_classification])
  have hid : parseOptInt r.model_dump "id" "id" (some 0) none = .ok r.id :=
    parseOptInt_eval _ _ _ _ _ _ (by rw [lookup2_self, glookupD_id]) h3
  unfold GamesRequest.model_validate
  rw [hy, hw, hst, ht, hh, ha, hcf, hcl, hid]
  simp only [h4]

/-- C7: parameter normalization is idempotent.  If a parameter set
normalizes successfully to `d` (external names, `None` omitted), then
validating `d` again succeeds and normalizes to the same `d`. -/
theorem games_normalization_idempotent (p d : Dict)
    (h : GamesRequest.normalize p = .ok d) :
    GamesRequest.normalize d = .ok d := by
  unfold GamesRequest.normalize at h ⊢
  cases hv : GamesRequest.model_validate p with
  | error e => rw [hv] at h; cases h
  | ok r =>
    rw [hv] at h
    cases h
    rw [games_validate_dump r (games_validate_ok_constraints p r hv)]
    rfl

/-- Witness for C7: `{year: 2023, seasonType: "regular"}` normalizes,
and its normalized form re-normalizes to itself. -/
theorem games_normalization_idempotent_witness :
    GamesRequest.normalize [("year", .num 2023), ("seasonType", .str "regular")] =
      .ok (GamesRequest.model_dump
        ⟨some 2023, none, some .regular, none, none, none, none, none, none⟩) ∧
    GamesRequest.normalize (GamesRequest.model_dump
        ⟨some 2023, none, some .regular, none, none, none, none, none, none⟩) =
      .ok (GamesRequest.model_dump
        ⟨some 2023, none, some .regular, none, none, none, none, none, none⟩) :=
  ⟨by rfl,
    games_normalization_idempotent
      [("year", .num 2023), ("seasonType", .str "regular")]
      (GamesRequest.model_dump
        ⟨some 2023, none, some .regular, none, none, none, none, none, none⟩)
      (by rfl)⟩

/-- C6: for every parameter set that passes request validation, the
normalized outgoing parameter set uses the external field-naming
convention (every key is an external name, internal `season_type` is
never emitted, a set season type is emitted under `seasonType`) and
contains no entry for any null/absent field (no `null` values, and a
`None` field contributes no key at all). -/
theorem games_params_normalized (p : Dict) (r : GamesRequest)
    (_h : GamesRequest.model_validate p = .ok r) :
    (∀ kv ∈ r.model_dump, kv.2 ≠ Json.null) ∧
    (∀ kv ∈ r.model_dump, kv.1 ∈ ["year", "week", "seasonType", "team",
      "home", "away", "conference", "classification", "id"]) ∧
    (∀ v, ("season_type", v) ∉ r.model_dump) ∧
    (∀ s, r.season_type = some s → ("seasonType", .str s.val) ∈ r.model_dump) ∧
    (r.year = none → ∀ v, ("year", v) ∉ r.model_dump) ∧
    (r.week = none → ∀ v, ("week", v) ∉ r.model_dump) ∧
    (r.season_type = none → ∀ v, ("seasonType", v) ∉ r.model_dump) ∧
    (r.team = none → ∀ v, ("team", v) ∉ r.model_dump) ∧
    (r.home = none → ∀ v, ("home", v) ∉ r.model_dump) ∧
    (r.away = none → ∀ v, ("away", v) ∉ r.model_dump) ∧
    (r.conference = none → ∀ v, ("conference", v) ∉ r.model_dump) ∧
    (r.classification = none → ∀ v, ("classification", v) ∉ r.model_dump) ∧
    (r.id = none → ∀ v, ("id", v) ∉ r.model_dump) := by
  refine ⟨?_, ?_, ?_, ?_, ?_, ?_, ?_, ?_, ?_, ?_, ?_, ?_, ?_⟩
  · intro kv hkv
    rw [GamesRequest.model_dump, mem_dumpAll] at hkv
    simp only [List.mem_cons, List.not_mem_nil, or_false] at hkv
    rcases hkv with hh|hh|hh|hh|hh|hh|hh|hh|hh <;>
      · obtain ⟨a, _, hfa⟩ := Option.map_eq_some'.mp (congrArg Prod.snd hh).symm
        rw [← hfa]
        simp [encInt]
  · intro kv hkv
    rw [GamesRequest.model_dump, mem_dumpAll] at hkv
    simp only [List.mem_cons, List.not_mem_nil, or_false] at hkv
    rcases hkv with hh|hh|hh|hh|hh|hh|hh|hh|hh <;>
      · have h1 := congrArg Prod.fst hh
        simp only at h1
        rw [h1]
        decide
  · intro v hv
    rw [GamesRequest.model_dump, mem_dumpAll] at hv
    simp at hv
  · intro s hs
    rw [GamesRequest.model_dump, mem_dumpAll]
    simp [hs]
  · intro h0 v hv
    rw [GamesRequest.model_dump, mem_dumpAll] at hv
    simp [h0] at hv
  · intro h0 v hv
    rw [GamesRequest.model_dump, mem_dumpAll] at hv
    simp [h0] at hv
  · intro h0 v hv
    rw [GamesRequest.model_dump, mem_dumpAll] at hv
    simp [h0] at hv
  · intro h0 v hv
    rw [GamesRequest.model_dump, mem_dumpAll] at hv
    simp [h0] at hv
  · intro h0 v hv
    rw [GamesRequest.model_dump, mem_dumpAll] at hv
    simp [h0] at hv
  · intro h0 v hv
    rw [GamesRequest.model_dump, mem_dumpAll] at hv
    simp [h0] at hv
  · intro h0 v hv
    rw [GamesRequest.model_dump, mem_dumpAll] at hv
    simp [h0] at hv
  · intro h0 v hv
    rw [GamesRequest.model_dump, mem_dumpAll] at hv
    simp [h0] at hv
  · intro h0 v hv
    rw [GamesRequest.model_dump, mem_dumpAll] at hv
    simp [h0] at hv

/-- Witness for C6: the normalized form of
`{year: 2023, seasonType: "regular"}` has no null entry and never emits
the internal name `season_type`. -/
theorem games_params_normalized_witness :
    (∀ kv ∈ GamesRequest.model_dump
        ⟨some 2023, none, some .regular, none, none, none, none, none, none⟩,
      kv.2 ≠ Json.null) ∧
    (∀ v, ("season_type", v) ∉ GamesRequest.model_dump
        ⟨some 2023, none, some .regular, none, none, none, none, none, none⟩) :=
  ⟨(games_params_normalized [("year", .num 2023), ("seasonType", .str "regular")]
      _ (by rfl)).1,
   (games_params_normalized [("year", .num 2023), ("seasonType", .str "regular")]
      _ (by rfl)).2.2.1⟩

end CfbData
